import Mathlib

/-!
Verification of the webhook-driven publishing pipeline in `server.go`.

The Go program is a thin orchestrator: a Telegram webhook handler decodes an
inbound update, validates its text, resolves it to an article
(`fetchArticle`), generates hashtags (`getHashtags`), publishes a tweet
(`postToTwitter`) and reports the outcome via `sendTelegramNotification`.

We embed the program shallowly: every external interaction (HTTP body
decoding, the three outbound API calls) is represented by an explicit
environment value describing what the outside world answers, and the handler
is a pure function from that environment to the ordered trace of observable
events (status codes written to the transport, stage invocations, and
notification sends).  The definitions mirror the Go control flow and the
exact strings the Go code builds with `fmt.Sprintf`/`fmt.Errorf`.
-/

/-- Mirrors Go struct `TelegramMessage` (src/server.go:24). -/
structure TelegramMessage where
  text : String
deriving DecidableEq, Repr

/-- Mirrors Go struct `TelegramUpdate` (src/server.go:18). -/
structure TelegramUpdate where
  update_id : Int
  message : TelegramMessage
deriving DecidableEq, Repr

/-- Mirrors Go struct `Article` (src/server.go:29). -/
structure Article where
  title : String
  description : String
  image : String
deriving DecidableEq, Repr

/-- One choice of the OpenRouter chat-completion response: we keep only the
`message.content` field the Go code reads (src/server.go:247-253). -/
structure OpenRouterChoice where
  content : String
deriving DecidableEq, Repr

/-- Mirrors Go struct `OpenRouterResponse` (src/server.go:247). -/
structure OpenRouterResponse where
  choices : List OpenRouterChoice
deriving DecidableEq, Repr

/-- Environment of one `fetchArticle` call (src/server.go:158-176): for the
requested URL, either `http.Get` fails with an error string, or it yields a
status code together with the result of JSON-decoding the body into an
`Article`. -/
structure FetchEnv where
  getResult : String → Except String (Nat × Except String Article)

/-- Environment of one `getHashtags` call (src/server.go:255-309): the
`OPENROUTER_API_KEY` value, the result of the HTTP round trip for the
submitted prompt (`client.Do` then `io.ReadAll`, yielding a status code and
a raw body string), and the result of `json.Unmarshal` on that body.
`json.Marshal` of the request and `http.NewRequest` with constant
method/URL cannot fail in Go and have no counterpart here. -/
structure HashtagEnv where
  apiKey : String
  doResult : String → Except String (Nat × Except String String)
  unmarshal : String → Except String OpenRouterResponse

/-- Environment of one `postToTwitter` call (src/server.go:178-234): the
four Twitter credentials and the result of the HTTP round trip for the
submitted tweet text (`httpClient.Do` then `io.ReadAll`, yielding a status
code and the raw response body). -/
structure TwitterEnv where
  consumerKey : String
  consumerSecret : String
  accessToken : String
  accessSecret : String
  doResult : String → Except String (Nat × Except String String)

/-- The article-lookup URL built in `fetchArticle` (src/server.go:159):
`https://viewon.news/notion.php?id=%s`. -/
def fetchURL (id : String) : String :=
  "https://viewon.news/notion.php?id=" ++ id

/-- `fetchArticle` (src/server.go:158-176): GET the article by id; non-200
status or an undecodable body is an error, with the exact Go error
strings. -/
def fetchArticle (id : String) (env : FetchEnv) : Except String Article :=
  match env.getResult (fetchURL id) with
  | .error e => .error ("could not fetch article: " ++ e)
  | .ok (status, bodyRes) =>
    if status ≠ 200 then
      .error ("unexpected status code: " ++ toString status)
    else
      match bodyRes with
      | .error e => .error ("could not decode article data: " ++ e)
      | .ok article => .ok article

/-- The prompt built in `getHashtags` (src/server.go:261). -/
def hashtagPrompt (title : String) (description : String) : String :=
  "Based on the following news article title and description, generate 3-5 relevant hashtags for a tweet. Do not include any other text, just the hashtags starting with #.\n\nTitle: "
    ++ title ++ "\nDescription: " ++ description

/-- `getHashtags` (src/server.go:255-309): requires the API key, submits the
prompt, and on a decodable 200 response returns the first choice's
`message.content` verbatim, or the `no content found` error when there are
zero choices. -/
def getHashtags (title : String) (description : String) (env : HashtagEnv) :
    Except String String :=
  if env.apiKey = "" then
    .error "OPENROUTER_API_KEY not set"
  else
    match env.doResult (hashtagPrompt title description) with
    | .error e => .error ("failed to send request to OpenRouter: " ++ e)
    | .ok (status, bodyRes) =>
      match bodyRes with
      | .error e => .error ("failed to read response body from OpenRouter: " ++ e)
      | .ok body =>
        if status ≠ 200 then
          .error ("received non-200 status from OpenRouter: " ++ body)
        else
          match env.unmarshal body with
          | .error e => .error ("failed to unmarshal OpenRouter response: " ++ e)
          | .ok r =>
            match r.choices with
            | c :: _ => .ok c.content
            | [] => .error "no content found in OpenRouter response"

/-- The canonical article URL built in `postToTwitter`
(src/server.go:196): `https://viewon.news/article.html?id=%s`. -/
def articleURL (messageID : String) : String :=
  "https://viewon.news/article.html?id=" ++ messageID

/-- The tweet text composed in `postToTwitter` (src/server.go:199):
`fmt.Sprintf("%s\n%s\n\n%s", article.Title, hashtags, articleURL)`. -/
def tweetText (article : Article) (messageID : String) (hashtags : String) : String :=
  article.title ++ "\n" ++ hashtags ++ "\n\n" ++ articleURL messageID

/-- `postToTwitter` (src/server.go:178-234): fails when any credential is
unset; otherwise submits the composed tweet and succeeds exactly on a 201
status, any other status yielding the `received non-201` error that embeds
the response body. -/
def postToTwitter (article : Article) (messageID : String) (hashtags : String)
    (env : TwitterEnv) : Except String Unit :=
  if env.consumerKey = "" ∨ env.consumerSecret = "" ∨
      env.accessToken = "" ∨ env.accessSecret = "" then
    .error "twitter api credentials not set"
  else
    match env.doResult (tweetText article messageID hashtags) with
    | .error e => .error ("failed to send request: " ++ e)
    | .ok (status, bodyRes) =>
      match bodyRes with
      | .error e => .error ("failed to read response body: " ++ e)
      | .ok body =>
        if status ≠ 201 then
          .error ("received non-201 status code: " ++ toString status
            ++ "\nResponse: " ++ body)
        else
          .ok ()

/-- Observable events of one run of `telegramHandler`, in order: status
codes written to the transport (`http.Error` / `w.WriteHeader`), stage
invocations, and calls to `sendTelegramNotification` with their message and
`parseMode` argument (`""` means plain text, src/server.go:116-135). -/
inductive Event where
  | writeStatus (code : Nat)
  | fetchCall (id : String)
  | hashtagCall (title : String) (description : String)
  | tweetCall (article : Article) (messageID : String) (hashtags : String)
  | notify (message : String) (parseMode : String)
deriving DecidableEq, Repr

/-- Environment of one `telegramHandler` run: the result of JSON-decoding
the request body into a `TelegramUpdate`, plus the environments of the three
outbound stages. -/
structure HandlerEnv where
  decodeBody : Except String TelegramUpdate
  fetchEnv : FetchEnv
  hashtagEnv : HashtagEnv
  twitterEnv : TwitterEnv

/-- The Go condition of the URL-validation guard (src/server.go:67):
`strings.HasPrefix(text, "http://") || strings.HasPrefix(text, "https://")`.
`strings.HasPrefix` is modelled at the character level: both candidate
prefixes are plain ASCII, so byte-prefix and character-prefix agree. -/
def urlPrefixed (txt : String) : Bool :=
  "http://".data.isPrefixOf txt.data || "https://".data.isPrefixOf txt.data

/-- `telegramHandler` (src/server.go:55-113), as the ordered trace of its
observable events.  Mirrors the Go control flow exactly: decode failure
writes 400; a `http://`/`https://`-prefixed text writes 200 and stops;
each stage failure notifies (plain text) then writes 200; full success
writes 200 and then notifies with `MarkdownV2` formatting. -/
def telegramHandler (env : HandlerEnv) : List Event :=
  match env.decodeBody with
  | .error _ => [.writeStatus 400]
  | .ok update =>
    if urlPrefixed update.message.text then
      [.writeStatus 200]
    else
      match fetchArticle update.message.text env.fetchEnv with
      | .error e =>
        [.fetchCall update.message.text,
         .notify ("❌ Failed to fetch article with ID " ++ update.message.text
           ++ ". Reason: " ++ e) "",
         .writeStatus 200]
      | .ok article =>
        match getHashtags article.title article.description env.hashtagEnv with
        | .error e =>
          [.fetchCall update.message.text,
           .hashtagCall article.title article.description,
           .notify ("❌ Failed to get hashtags for article with ID " ++ update.message.text
             ++ ". Reason: " ++ e) "",
           .writeStatus 200]
        | .ok hashtags =>
          match postToTwitter article update.message.text hashtags env.twitterEnv with
          | .error e =>
            [.fetchCall update.message.text,
             .hashtagCall article.title article.description,
             .tweetCall article update.message.text hashtags,
             .notify ("❌ Failed to post to Twitter for article with ID " ++ update.message.text
               ++ ". Reason: " ++ e) "",
             .writeStatus 200]
          | .ok _ =>
            [.fetchCall update.message.text,
             .hashtagCall article.title article.description,
             .tweetCall article update.message.text hashtags,
             .writeStatus 200,
             .notify ("✅ Successfully posted article with ID: `" ++ update.message.text ++ "`")
               "MarkdownV2"]

/-- The status codes a trace writes to the transport, in order. -/
def writtenStatuses (tr : List Event) : List Nat :=
  tr.filterMap fun e =>
    match e with
    | .writeStatus c => some c
    | _ => none

/-- The notifications a trace sends, in order, as (message, parseMode). -/
def sentNotifications (tr : List Event) : List (String × String) :=
  tr.filterMap fun e =>
    match e with
    | .notify m p => some (m, p)
    | _ => none

/-- The article-resolver invocations of a trace (their identifiers). -/
def fetchCalls (tr : List Event) : List String :=
  tr.filterMap fun e =>
    match e with
    | .fetchCall id => some id
    | _ => none

/-- The hashtag-generator invocations of a trace (title, description). -/
def hashtagCalls (tr : List Event) : List (String × String) :=
  tr.filterMap fun e =>
    match e with
    | .hashtagCall t d => some (t, d)
    | _ => none

/-- The publisher invocations of a trace (article, identifier, hashtags). -/
def tweetCalls (tr : List Event) : List (Article × String × String) :=
  tr.filterMap fun e =>
    match e with
    | .tweetCall a i h => some (a, i, h)
    | _ => none

/-! ### Concrete sample environments, used by the witness theorems -/

/-- A sample article, as in the spec's end-to-end scenario. -/
def sampleArticle : Article := ⟨"T", "D", "I"⟩

/-- A fetch environment whose lookup succeeds with `sampleArticle`. -/
def okFetchEnv : FetchEnv := ⟨fun _ => .ok (200, .ok sampleArticle)⟩

/-- A fetch environment whose `http.Get` fails at the transport level. -/
def failFetchEnv : FetchEnv := ⟨fun _ => .error "connection refused"⟩

/-- A hashtag environment that answers 200 with one choice `"#a #b #c"`. -/
def okHashtagEnv : HashtagEnv :=
  ⟨"key", fun _ => .ok (200, .ok "body"), fun _ => .ok ⟨[⟨"#a #b #c"⟩]⟩⟩

/-- A twitter environment with all credentials set that answers 201. -/
def okTwitterEnv : TwitterEnv :=
  ⟨"ck", "cs", "at", "as", fun _ => .ok (201, .ok "created")⟩

/-- A twitter environment with all credentials set whose API answers a
generic 200 success instead of 201 Created. -/
def status200TwitterEnv : TwitterEnv :=
  ⟨"ck", "cs", "at", "as", fun _ => .ok (200, .ok "ok body")⟩

/-- A trigger update carrying the given message text. -/
def sampleUpdate (txt : String) : TelegramUpdate := ⟨1, ⟨txt⟩⟩

/-- A handler environment in which every stage succeeds for id `abc123`. -/
def successEnv : HandlerEnv :=
  ⟨.ok (sampleUpdate "abc123"), okFetchEnv, okHashtagEnv, okTwitterEnv⟩

/-! ### Claims -/

/-- Claim C1: for every inbound request whose body decodes successfully as a
trigger and whose message text does not begin with a URL scheme, the handler
writes HTTP status 200 to the transport, regardless of whether the resolve,
generate, or publish stage succeeds or fails. -/
theorem valid_trigger_always_acked_200 (env : HandlerEnv) (u : TelegramUpdate)
    (hdec : env.decodeBody = .ok u)
    (hurl : urlPrefixed u.message.text = false) :
    writtenStatuses (telegramHandler env) = [200] := by
  obtain ⟨db, fe, he, te⟩ := env
  simp only at hdec
  subst hdec
  simp only [telegramHandler, hurl, Bool.false_eq_true, if_false]
  split
  · rfl
  · split
    · rfl
    · split
      · rfl
      · rfl

/-- Witness for C1 at a concrete input: a valid trigger whose resolve stage
fails still gets a 200 acknowledgment. -/
theorem valid_trigger_always_acked_200_witness :
    urlPrefixed "abc123" = false ∧
      writtenStatuses (telegramHandler
        ⟨.ok (sampleUpdate "abc123"), failFetchEnv, okHashtagEnv, okTwitterEnv⟩) = [200] :=
  ⟨by decide,
   valid_trigger_always_acked_200
     ⟨.ok (sampleUpdate "abc123"), failFetchEnv, okHashtagEnv, okTwitterEnv⟩
     (sampleUpdate "abc123") rfl (by decide)⟩

/-! ### Trace characterization lemmas for `telegramHandler` -/

/-- An undecodable body produces exactly one 400 write (src/server.go:57-61). -/
theorem telegramHandler_decode_error_eq (fe : FetchEnv) (he : HashtagEnv)
    (te : TwitterEnv) (e : String) :
    telegramHandler ⟨.error e, fe, he, te⟩ = [.writeStatus 400] := rfl

/-- A URL-prefixed trigger produces exactly one 200 write (src/server.go:67-71). -/
theorem telegramHandler_url_eq (fe : FetchEnv) (he : HashtagEnv) (te : TwitterEnv)
    (u : TelegramUpdate) (h : urlPrefixed u.message.text = true) :
    telegramHandler ⟨.ok u, fe, he, te⟩ = [.writeStatus 200] := by
  simp [telegramHandler, h]

/-- Trace when the resolve stage fails (src/server.go:75-83). -/
theorem telegramHandler_fetch_error_eq (fe : FetchEnv) (he : HashtagEnv)
    (te : TwitterEnv) (u : TelegramUpdate) (e : String)
    (hurl : urlPrefixed u.message.text = false)
    (hf : fetchArticle u.message.text fe = .error e) :
    telegramHandler ⟨.ok u, fe, he, te⟩ =
      [.fetchCall u.message.text,
       .notify ("❌ Failed to fetch article with ID " ++ u.message.text
         ++ ". Reason: " ++ e) "",
       .writeStatus 200] := by
  simp only [telegramHandler, hurl, Bool.false_eq_true, if_false, hf]

/-- Trace when the hashtag stage fails (src/server.go:87-95). -/
theorem telegramHandler_hashtag_error_eq (fe : FetchEnv) (he : HashtagEnv)
    (te : TwitterEnv) (u : TelegramUpdate) (article : Article) (e : String)
    (hurl : urlPrefixed u.message.text = false)
    (hf : fetchArticle u.message.text fe = .ok article)
    (hh : getHashtags article.title article.description he = .error e) :
    telegramHandler ⟨.ok u, fe, he, te⟩ =
      [.fetchCall u.message.text,
       .hashtagCall article.title article.description,
       .notify ("❌ Failed to get hashtags for article with ID " ++ u.message.text
         ++ ". Reason: " ++ e) "",
       .writeStatus 200] := by
  simp only [telegramHandler, hurl, Bool.false_eq_true, if_false, hf, hh]

/-- Trace when the publish stage fails (src/server.go:99-106). -/
theorem telegramHandler_tweet_error_eq (fe : FetchEnv) (he : HashtagEnv)
    (te : TwitterEnv) (u : TelegramUpdate) (article : Article)
    (hashtags e : String)
    (hurl : urlPrefixed u.message.text = false)
    (hf : fetchArticle u.message.text fe = .ok article)
    (hh : getHashtags article.title article.description he = .ok hashtags)
    (ht : postToTwitter article u.message.text hashtags te = .error e) :
    telegramHandler ⟨.ok u, fe, he, te⟩ =
      [.fetchCall u.message.text,
       .hashtagCall article.title article.description,
       .tweetCall article u.message.text hashtags,
       .notify ("❌ Failed to post to Twitter for article with ID " ++ u.message.text
         ++ ". Reason: " ++ e) "",
       .writeStatus 200] := by
  simp only [telegramHandler, hurl, Bool.false_eq_true, if_false, hf, hh, ht]

/-- Trace on full pipeline success (src/server.go:109-112). -/
theorem telegramHandler_success_eq (fe : FetchEnv) (he : HashtagEnv)
    (te : TwitterEnv) (u : TelegramUpdate) (article : Article) (hashtags : String)
    (hurl : urlPrefixed u.message.text = false)
    (hf : fetchArticle u.message.text fe = .ok article)
    (hh : getHashtags article.title article.description he = .ok hashtags)
    (ht : postToTwitter article u.message.text hashtags te = .ok ()) :
    telegramHandler ⟨.ok u, fe, he, te⟩ =
      [.fetchCall u.message.text,
       .hashtagCall article.title article.description,
       .tweetCall article u.message.text hashtags,
       .writeStatus 200,
       .notify ("✅ Successfully posted article with ID: `" ++ u.message.text ++ "`")
         "MarkdownV2"] := by
  simp only [telegramHandler, hurl, Bool.false_eq_true, if_false, hf, hh, ht]

/-- Claim C2: a trigger whose message text starts with `http://` or
`https://` gets a 200 acknowledgment, no resolve/generate/publish call is
made, and the Notifier is never invoked. -/
theorem url_trigger_acked_without_calls (env : HandlerEnv) (u : TelegramUpdate)
    (hdec : env.decodeBody = .ok u)
    (hurl : urlPrefixed u.message.text = true) :
    writtenStatuses (telegramHandler env) = [200] ∧
    fetchCalls (telegramHandler env) = [] ∧
    hashtagCalls (telegramHandler env) = [] ∧
    tweetCalls (telegramHandler env) = [] ∧
    sentNotifications (telegramHandler env) = [] := by
  obtain ⟨db, fe, he, te⟩ := env
  simp only at hdec
  subst hdec
  rw [telegramHandler_url_eq fe he te u hurl]
  exact ⟨rfl, rfl, rfl, rfl, rfl⟩

/-- Witness for C2 at the spec's scenario input `https://evil.example/x`. -/
theorem url_trigger_acked_without_calls_witness :
    urlPrefixed "https://evil.example/x" = true ∧
      writtenStatuses (telegramHandler
        ⟨.ok (sampleUpdate "https://evil.example/x"), okFetchEnv, okHashtagEnv,
          okTwitterEnv⟩) = [200] :=
  ⟨by decide,
   (url_trigger_acked_without_calls
     ⟨.ok (sampleUpdate "https://evil.example/x"), okFetchEnv, okHashtagEnv, okTwitterEnv⟩
     (sampleUpdate "https://evil.example/x") rfl (by decide)).1⟩

/-- Claim C3: an undecodable body gets status 400 and no notification, and
this is the only way the transport sees a non-200 status: whenever the body
decodes, the written statuses are exactly `[200]`. -/
theorem decode_failure_only_non_200 (env : HandlerEnv) :
    (∀ e, env.decodeBody = .error e →
      writtenStatuses (telegramHandler env) = [400] ∧
      sentNotifications (telegramHandler env) = []) ∧
    (∀ u, env.decodeBody = .ok u →
      writtenStatuses (telegramHandler env) = [200]) := by
  obtain ⟨db, fe, he, te⟩ := env
  cases db with
  | error e0 =>
    refine ⟨fun e h => ?_, fun u h => nomatch h⟩
    rw [telegramHandler_decode_error_eq fe he te e0]
    exact ⟨rfl, rfl⟩
  | ok u0 =>
    refine ⟨(fun e h => nomatch h), fun u h => ?_⟩
    cases hurl : urlPrefixed u0.message.text with
    | true =>
      rw [telegramHandler_url_eq fe he te u0 hurl]
      rfl
    | false =>
      cases hf : fetchArticle u0.message.text fe with
      | error e1 =>
        rw [telegramHandler_fetch_error_eq fe he te u0 e1 hurl hf]
        rfl
      | ok article =>
        cases hh : getHashtags article.title article.description he with
        | error e1 =>
          rw [telegramHandler_hashtag_error_eq fe he te u0 article e1 hurl hf hh]
          rfl
        | ok hashtags =>
          cases ht : postToTwitter article u0.message.text hashtags te with
          | error e1 =>
            rw [telegramHandler_tweet_error_eq fe he te u0 article hashtags e1 hurl hf hh ht]
            rfl
          | ok r =>
            rw [telegramHandler_success_eq fe he te u0 article hashtags hurl hf hh ht]
            rfl

/-- Witness for C3 at a concrete undecodable body. -/
theorem decode_failure_only_non_200_witness :
    writtenStatuses (telegramHandler
      ⟨.error "unexpected EOF", okFetchEnv, okHashtagEnv, okTwitterEnv⟩) = [400] ∧
    sentNotifications (telegramHandler
      ⟨.error "unexpected EOF", okFetchEnv, okHashtagEnv, okTwitterEnv⟩) = [] :=
  (decode_failure_only_non_200
    ⟨.error "unexpected EOF", okFetchEnv, okHashtagEnv, okTwitterEnv⟩).1
    "unexpected EOF" rfl

/-- Claim C4: if the resolve stage fails for identifier `X` with error `E`,
the Notifier is invoked exactly once, with the plain-text (empty
`parse_mode`) message embedding both `X` and the error text, and neither the
hashtag generator nor the publisher is ever invoked for that run. -/
theorem fetch_failure_notifies_once_plain (env : HandlerEnv) (u : TelegramUpdate)
    (e : String)
    (hdec : env.decodeBody = .ok u)
    (hurl : urlPrefixed u.message.text = false)
    (hf : fetchArticle u.message.text env.fetchEnv = .error e) :
    sentNotifications (telegramHandler env) =
      [("❌ Failed to fetch article with ID " ++ u.message.text ++ ". Reason: " ++ e, "")] ∧
    hashtagCalls (telegramHandler env) = [] ∧
    tweetCalls (telegramHandler env) = [] := by
  obtain ⟨db, fe, he, te⟩ := env
  simp only at hdec hf
  subst hdec
  rw [telegramHandler_fetch_error_eq fe he te u e hurl hf]
  exact ⟨rfl, rfl, rfl⟩

/-- Witness for C4: a transport failure of the article lookup for id
`abc123` produces exactly the one plain-text failure notification. -/
theorem fetch_failure_notifies_once_plain_witness :
    sentNotifications (telegramHandler
      ⟨.ok (sampleUpdate "abc123"), failFetchEnv, okHashtagEnv, okTwitterEnv⟩) =
      [("❌ Failed to fetch article with ID " ++ "abc123" ++ ". Reason: "
        ++ "could not fetch article: connection refused", "")] ∧
    hashtagCalls (telegramHandler
      ⟨.ok (sampleUpdate "abc123"), failFetchEnv, okHashtagEnv, okTwitterEnv⟩) = [] ∧
    tweetCalls (telegramHandler
      ⟨.ok (sampleUpdate "abc123"), failFetchEnv, okHashtagEnv, okTwitterEnv⟩) = [] :=
  fetch_failure_notifies_once_plain
    ⟨.ok (sampleUpdate "abc123"), failFetchEnv, okHashtagEnv, okTwitterEnv⟩
    (sampleUpdate "abc123") "could not fetch article: connection refused"
    rfl rfl rfl

/-- Counterexample to C5 as stated: on a fully successful run the publisher
is invoked exactly once, but the composed post text is NOT the three-line
string `<title>\n<hashtags>\n<canonical-url>`: the code
(src/server.go:199) inserts an empty line between the hashtag line and the
URL (`"%s\n%s\n\n%s"`). -/
theorem publish_post_text_counterexample :
    tweetCalls (telegramHandler successEnv) = [(sampleArticle, "abc123", "#a #b #c")] ∧
    tweetText sampleArticle "abc123" "#a #b #c" ≠
      sampleArticle.title ++ "\n" ++ "#a #b #c" ++ "\n" ++ articleURL "abc123" := by
  exact ⟨rfl, by decide⟩

/-- Claim C5 (amended): when all three stages succeed for identifier `X`,
the publisher is invoked exactly once, and the composed post text is the
article title line, the hashtag line, an empty line, and then the canonical
article URL built from `X` (`<title>\n<hashtags>\n\n<url-template-with-X>`). -/
theorem publish_post_text_amended (env : HandlerEnv) (u : TelegramUpdate)
    (article : Article) (hashtags : String)
    (hdec : env.decodeBody = .ok u)
    (hurl : urlPrefixed u.message.text = false)
    (hf : fetchArticle u.message.text env.fetchEnv = .ok article)
    (hh : getHashtags article.title article.description env.hashtagEnv = .ok hashtags)
    (ht : postToTwitter article u.message.text hashtags env.twitterEnv = .ok ()) :
    tweetCalls (telegramHandler env) = [(article, u.message.text, hashtags)] ∧
    tweetText article u.message.text hashtags =
      article.title ++ "\n" ++ hashtags ++ "\n\n" ++ articleURL u.message.text := by
  obtain ⟨db, fe, he, te⟩ := env
  simp only at hdec hf hh ht
  subst hdec
  rw [telegramHandler_success_eq fe he te u article hashtags hurl hf hh ht]
  exact ⟨rfl, rfl⟩

/-- Witness for the amended C5 on the spec's end-to-end scenario. -/
theorem publish_post_text_amended_witness :
    tweetCalls (telegramHandler successEnv) = [(sampleArticle, "abc123", "#a #b #c")] ∧
    tweetText sampleArticle "abc123" "#a #b #c" =
      "T" ++ "\n" ++ "#a #b #c" ++ "\n\n" ++ articleURL "abc123" :=
  publish_post_text_amended successEnv (sampleUpdate "abc123") sampleArticle "#a #b #c"
    rfl rfl rfl rfl rfl

/-- Claim C6: on full pipeline success for identifier `X` the handler first
writes 200 to the transport and then invokes the Notifier exactly once, with
the `MarkdownV2`-formatted message `✅ Successfully posted article with ID:
\`X\``; the full trace equality fixes both the order and the multiplicity. -/
theorem success_acks_then_notifies (env : HandlerEnv) (u : TelegramUpdate)
    (article : Article) (hashtags : String)
    (hdec : env.decodeBody = .ok u)
    (hurl : urlPrefixed u.message.text = false)
    (hf : fetchArticle u.message.text env.fetchEnv = .ok article)
    (hh : getHashtags article.title article.description env.hashtagEnv = .ok hashtags)
    (ht : postToTwitter article u.message.text hashtags env.twitterEnv = .ok ()) :
    telegramHandler env =
      [.fetchCall u.message.text,
       .hashtagCall article.title article.description,
       .tweetCall article u.message.text hashtags,
       .writeStatus 200,
       .notify ("✅ Successfully posted article with ID: `" ++ u.message.text ++ "`")
         "MarkdownV2"] := by
  obtain ⟨db, fe, he, te⟩ := env
  simp only at hdec hf hh ht
  subst hdec
  exact telegramHandler_success_eq fe he te u article hashtags hurl hf hh ht

/-- Witness for C6 on the spec's end-to-end scenario (id `abc123`). -/
theorem success_acks_then_notifies_witness :
    telegramHandler successEnv =
      [.fetchCall "abc123",
       .hashtagCall "T" "D",
       .tweetCall sampleArticle "abc123" "#a #b #c",
       .writeStatus 200,
       .notify "✅ Successfully posted article with ID: `abc123`" "MarkdownV2"] :=
  success_acks_then_notifies successEnv (sampleUpdate "abc123") sampleArticle "#a #b #c"
    rfl rfl rfl rfl rfl

/-- Claim C7: with credentials set, once the social-media API responds with
some status and a readable body, the publisher returns success if and only
if that status is 201, and any other status — including 200 — yields the
error that captures the response body. -/
theorem postToTwitter_success_iff_201 (article : Article)
    (messageID hashtags : String) (env : TwitterEnv) (status : Nat) (body : String)
    (hck : ¬env.consumerKey = "") (hcs : ¬env.consumerSecret = "")
    (hac : ¬env.accessToken = "") (has : ¬env.accessSecret = "")
    (hdo : env.doResult (tweetText article messageID hashtags) = .ok (status, .ok body)) :
    (postToTwitter article messageID hashtags env = .ok () ↔ status = 201) ∧
    (status ≠ 201 →
      postToTwitter article messageID hashtags env =
        .error ("received non-201 status code: " ++ toString status
          ++ "\nResponse: " ++ body)) := by
  have hcred : ¬(env.consumerKey = "" ∨ env.consumerSecret = "" ∨
      env.accessToken = "" ∨ env.accessSecret = "") := by
    push_neg
    exact ⟨hck, hcs, hac, has⟩
  have key : postToTwitter article messageID hashtags env =
      if status ≠ 201 then
        .error ("received non-201 status code: " ++ toString status
          ++ "\nResponse: " ++ body)
      else .ok () := by
    unfold postToTwitter
    rw [if_neg hcred, hdo]
  constructor
  · constructor
    · intro hok
      by_contra hne
      rw [key, if_pos hne] at hok
      cases hok
    · intro h201
      rw [key, if_neg (fun hcon => hcon h201)]
  · intro hne
    rw [key, if_pos hne]

/-- Witness for C7: a generic 200 from the API is rejected — the publisher
errors with the body captured, and succeeds only for 201. -/
theorem postToTwitter_success_iff_201_witness :
    (postToTwitter sampleArticle "abc123" "#a #b #c" status200TwitterEnv = .ok () ↔
      (200 : Nat) = 201) ∧
    ((200 : Nat) ≠ 201 →
      postToTwitter sampleArticle "abc123" "#a #b #c" status200TwitterEnv =
        .error ("received non-201 status code: " ++ toString (200 : Nat)
          ++ "\nResponse: " ++ "ok body")) :=
  postToTwitter_success_iff_201 sampleArticle "abc123" "#a #b #c" status200TwitterEnv
    200 "ok body" (by decide) (by decide) (by decide) (by decide) rfl

/-- Claim C8: given a decodable 200 response from the language-model
endpoint, the hashtag generator returns the first completion's text
verbatim when at least one completion is present, and returns the
empty-result error exactly when the response has zero completions. -/
theorem getHashtags_first_choice_verbatim (title description : String)
    (env : HashtagEnv) (body : String) (r : OpenRouterResponse)
    (hkey : ¬env.apiKey = "")
    (hdo : env.doResult (hashtagPrompt title description) = .ok (200, .ok body))
    (hun : env.unmarshal body = .ok r) :
    getHashtags title description env =
      match r.choices with
      | c :: _ => .ok c.content
      | [] => .error "no content found in OpenRouter response" := by
  have key : getHashtags title description env =
      match env.unmarshal body with
      | .error e => .error ("failed to unmarshal OpenRouter response: " ++ e)
      | .ok r2 =>
        match r2.choices with
        | c :: _ => .ok c.content
        | [] => .error "no content found in OpenRouter response" := by
    unfold getHashtags
    rw [if_neg hkey, hdo]
    rfl
  rw [key, hun]

/-- Witness for C8: one completion `#a #b #c` is returned verbatim. -/
theorem getHashtags_first_choice_verbatim_witness :
    getHashtags "T" "D" okHashtagEnv = .ok "#a #b #c" :=
  getHashtags_first_choice_verbatim "T" "D" okHashtagEnv "body" ⟨[⟨"#a #b #c"⟩]⟩
    (by decide) rfl rfl

/-- Counterexample to C9 as stated: for the valid trigger `abc123` (decoded
successfully, not URL-prefixed) whose resolve stage fails, zero publish
attempts occur, not exactly one. -/
theorem one_publish_per_valid_trigger_counterexample :
    urlPrefixed "abc123" = false ∧
    (telegramHandler
      ⟨.ok (sampleUpdate "abc123"), failFetchEnv, okHashtagEnv, okTwitterEnv⟩).length ≠ 0 ∧
    (tweetCalls (telegramHandler
      ⟨.ok (sampleUpdate "abc123"), failFetchEnv, okHashtagEnv, okTwitterEnv⟩)).length ≠ 1 := by
  refine ⟨rfl, ?_, ?_⟩ <;> decide

/-- For a valid trigger, every stage and the Notifier appear at most once
in the handler trace, whatever the downstream outcomes. -/
theorem stage_counts_le_one (fe : FetchEnv) (he : HashtagEnv) (te : TwitterEnv)
    (u : TelegramUpdate) (hurl : urlPrefixed u.message.text = false) :
    (fetchCalls (telegramHandler ⟨.ok u, fe, he, te⟩)).length ≤ 1 ∧
    (hashtagCalls (telegramHandler ⟨.ok u, fe, he, te⟩)).length ≤ 1 ∧
    (tweetCalls (telegramHandler ⟨.ok u, fe, he, te⟩)).length ≤ 1 ∧
    (sentNotifications (telegramHandler ⟨.ok u, fe, he, te⟩)).length ≤ 1 := by
  cases hf : fetchArticle u.message.text fe with
  | error e1 =>
    rw [telegramHandler_fetch_error_eq fe he te u e1 hurl hf]
    exact ⟨Nat.le_refl 1, Nat.zero_le 1, Nat.zero_le 1, Nat.le_refl 1⟩
  | ok article =>
    cases hh : getHashtags article.title article.description he with
    | error e1 =>
      rw [telegramHandler_hashtag_error_eq fe he te u article e1 hurl hf hh]
      exact ⟨Nat.le_refl 1, Nat.le_refl 1, Nat.zero_le 1, Nat.le_refl 1⟩
    | ok hashtags =>
      cases ht : postToTwitter article u.message.text hashtags te with
      | error e1 =>
        rw [telegramHandler_tweet_error_eq fe he te u article hashtags e1 hurl hf hh ht]
        exact ⟨Nat.le_refl 1, Nat.le_refl 1, Nat.le_refl 1, Nat.le_refl 1⟩
      | ok r =>
        rw [telegramHandler_success_eq fe he te u article hashtags hurl hf hh ht]
        exact ⟨Nat.le_refl 1, Nat.le_refl 1, Nat.le_refl 1, Nat.le_refl 1⟩

/-- Once resolve and generate have succeeded, the trace holds exactly one
publish invocation, whether the publish stage succeeds or fails. -/
theorem tweet_count_one_after_resolve_generate (fe : FetchEnv) (he : HashtagEnv)
    (te : TwitterEnv) (u : TelegramUpdate) (article : Article) (hashtags : String)
    (hurl : urlPrefixed u.message.text = false)
    (hf : fetchArticle u.message.text fe = .ok article)
    (hh : getHashtags article.title article.description he = .ok hashtags) :
    (tweetCalls (telegramHandler ⟨.ok u, fe, he, te⟩)).length = 1 := by
  cases ht : postToTwitter article u.message.text hashtags te with
  | error e1 =>
    rw [telegramHandler_tweet_error_eq fe he te u article hashtags e1 hurl hf hh ht]
    rfl
  | ok r =>
    rw [telegramHandler_success_eq fe he te u article hashtags hurl hf hh ht]
    rfl

/-- Claim C9 (amended): for every valid trigger at most one publish attempt
occurs — exactly one when the resolve and generate stages both succeed —
and no stage (resolve, generate, publish, notify) is ever invoked more than
once during the pipeline run. -/
theorem at_most_one_publish_attempt (env : HandlerEnv) (u : TelegramUpdate)
    (hdec : env.decodeBody = .ok u)
    (hurl : urlPrefixed u.message.text = false) :
    (fetchCalls (telegramHandler env)).length ≤ 1 ∧
    (hashtagCalls (telegramHandler env)).length ≤ 1 ∧
    (tweetCalls (telegramHandler env)).length ≤ 1 ∧
    (sentNotifications (telegramHandler env)).length ≤ 1 ∧
    (∀ article hashtags,
      fetchArticle u.message.text env.fetchEnv = .ok article →
      getHashtags article.title article.description env.hashtagEnv = .ok hashtags →
      (tweetCalls (telegramHandler env)).length = 1) := by
  obtain ⟨db, fe, he, te⟩ := env
  simp only at hdec
  subst hdec
  obtain ⟨h1, h2, h3, h4⟩ := stage_counts_le_one fe he te u hurl
  exact ⟨h1, h2, h3, h4, fun article hashtags hf hh =>
    tweet_count_one_after_resolve_generate fe he te u article hashtags hurl hf hh⟩

/-- Witness for the amended C9: on the fully successful scenario run, every
stage is invoked at most once and the publish attempt count is exactly 1. -/
theorem at_most_one_publish_attempt_witness :
    (fetchCalls (telegramHandler successEnv)).length ≤ 1 ∧
    (hashtagCalls (telegramHandler successEnv)).length ≤ 1 ∧
    (tweetCalls (telegramHandler successEnv)).length ≤ 1 ∧
    (sentNotifications (telegramHandler successEnv)).length ≤ 1 ∧
    (∀ article hashtags,
      fetchArticle "abc123" okFetchEnv = .ok article →
      getHashtags article.title article.description okHashtagEnv = .ok hashtags →
      (tweetCalls (telegramHandler successEnv)).length = 1) :=
  at_most_one_publish_attempt successEnv (sampleUpdate "abc123") rfl rfl

/-- Claim C10: the composed post text depends only on the article title,
the hashtag string, and the trigger identifier — two publish invocations
agreeing on those three but differing in the article description and/or
image produce an identical submitted post text. -/
theorem post_text_ignores_description_image (a1 a2 : Article)
    (messageID hashtags : String) (htitle : a1.title = a2.title) :
    tweetText a1 messageID hashtags = tweetText a2 messageID hashtags := by
  simp only [tweetText, htitle]

/-- Witness for C10: articles sharing a title but with different
descriptions and images yield the same post text. -/
theorem post_text_ignores_description_image_witness :
    tweetText ⟨"T", "D1", "I1"⟩ "abc123" "#a #b #c" =
      tweetText ⟨"T", "D2", "I2"⟩ "abc123" "#a #b #c" :=
  post_text_ignores_description_image ⟨"T", "D1", "I1"⟩ ⟨"T", "D2", "I2"⟩
    "abc123" "#a #b #c" rfl
